import Mathlib

/-!
Verification of the interactive scene choreography code in `src/main.js`
(camera tweening, orbit constraints, annotation visual state, pointer
routing, stage loading).  All numeric computations of the source are
embedded over `ℚ`; DOM-only effects (class lists, scrolling, logging) are
omitted since they touch no modelled state.
-/

/-- A 3D vector with rational coordinates (embeds `THREE.Vector3`). -/
structure Vec3 where
  x : ℚ
  y : ℚ
  z : ℚ
deriving DecidableEq, Repr

/-- `THREE.Vector3.lerpVectors(a, b, t)`: componentwise `a + (b - a) * t`. -/
def vecLerp (a b : Vec3) (t : ℚ) : Vec3 :=
  ⟨a.x + (b.x - a.x) * t, a.y + (b.y - a.y) * t, a.z + (b.z - a.z) * t⟩

/-- Componentwise difference, used to speak about the camera-to-target offset. -/
def vecSub (a b : Vec3) : Vec3 :=
  ⟨a.x - b.x, a.y - b.y, a.z - b.z⟩

/-- `THREE.MathUtils.lerp(x, y, t) = (1 - t) * x + t * y`. -/
def mathLerp (x y t : ℚ) : ℚ := (1 - t) * x + t * y

/-- `THREE.MathUtils.smoothstep(x, min, max)`: returns 0 below `min`, 1 above
`max`, and `k * k * (3 - 2 * k)` on the normalized remainder in between. -/
def smoothstepQ (x mn mx : ℚ) : ℚ :=
  if x ≤ mn then 0
  else if mx ≤ x then 1
  else
    let k := (x - mn) / (mx - mn)
    k * k * (3 - 2 * k)

/-- The camera pose the viewer exposes: `viewer.camera.position` together with
`viewer.controls.target`. -/
structure CameraState where
  position : Vec3
  target : Vec3
deriving DecidableEq, Repr

/-- The camera move tween globals of `main.js`: `camMoveActive`, `camMoveStart`,
`camMoveDuration`, `camStartPos`, `camStartTarget`, `camTargetPos`,
`camTargetTarget`. -/
structure TweenState where
  active : Bool
  startTime : ℚ
  duration : ℚ
  startPos : Vec3
  startTarget : Vec3
  endPos : Vec3
  endTarget : Vec3
deriving DecidableEq, Repr

/-- `moveCameraTo(positionVec, lookAtVec, duration)` with the viewer present:
captures the current camera position and orbit target as the tween start,
stamps `performance.now()` and activates the tween. -/
def moveCameraTo (cam : CameraState) (positionVec lookAtVec : Vec3) (now dur : ℚ) :
    TweenState :=
  { active := true
    startTime := now
    duration := dur
    startPos := cam.position
    startTarget := cam.target
    endPos := positionVec
    endTarget := lookAtVec }

/-- The camera tween block at the top of `animate()`:
`t = Math.min(1, (now - camMoveStart) / camMoveDuration)`, smoothstep easing,
`lerpVectors` into the camera position and the controls target, and
`camMoveActive = false` once `t >= 1`. -/
def tweenStep (tw : TweenState) (cam : CameraState) (now : ℚ) :
    TweenState × CameraState :=
  if tw.active then
    let t := min 1 ((now - tw.startTime) / tw.duration)
    let easedT := smoothstepQ t 0 1
    let cam' : CameraState :=
      ⟨vecLerp tw.startPos tw.endPos easedT, vecLerp tw.startTarget tw.endTarget easedT⟩
    let tw' := if 1 ≤ t then { tw with active := false } else tw
    (tw', cam')
  else (tw, cam)

/-- The pan lock block of `animate()`: when `isPanLockActive` and the viewer,
controls and camera exist, and `controls.target.y > 0`, subtract that excess
from both the camera position's and the target's y coordinate. -/
def panLockStep (lockActive viewerPresent : Bool) (cam : CameraState) : CameraState :=
  if lockActive && viewerPresent then
    if 0 < cam.target.y then
      let deltaY := cam.target.y
      ⟨⟨cam.position.x, cam.position.y - deltaY, cam.position.z⟩,
       ⟨cam.target.x, cam.target.y - deltaY, cam.target.z⟩⟩
    else cam
  else cam

/-- Per-annotation visual state: the group scale (`annotation.scale.x`), the
fill material opacity, and the `userData.targetScale` / `userData.targetOpacity`
written by the interaction handlers. -/
structure AnnState where
  currentScale : ℚ
  currentOpacity : ℚ
  targetScale : ℚ
  targetOpacity : ℚ
deriving DecidableEq, Repr

/-- A freshly created annotation group (`addAnnotations`): scale 1, fill
opacity 0.01, targets 1.0 / 0.01. -/
def initAnn : AnnState :=
  { currentScale := 1, currentOpacity := 1/100, targetScale := 1, targetOpacity := 1/100 }

/-- Default used to read an annotation list out of range (JS would yield
`undefined` and every handler guards on it, leaving state untouched). -/
def dAnn : AnnState := initAnn

/-- Write the hover/select targets of one annotation. -/
def setTargets (ts tOpac : ℚ) (a : AnnState) : AnnState :=
  { a with targetScale := ts, targetOpacity := tOpac }

/-- Write the live scale/opacity of one annotation directly (the snap in the
outside-viewport branch of `onAnnotationHover`). -/
def setCurrents (cs co : ℚ) (a : AnnState) : AnnState :=
  { a with currentScale := cs, currentOpacity := co }

/-- Update the element at one position of a list, identity out of range. -/
def updAnn (f : α → α) : Nat → List α → List α
  | _, [] => []
  | 0, a :: as => f a :: as
  | n + 1, a :: as => a :: updAnn f n as

/-- Per-stage annotation data rows (`currentAnnotationsData`): 3D position and
the optional fly-to camera pose. -/
structure AnnData where
  pos : Vec3
  cameraPos : Option Vec3
  cameraLookAt : Option Vec3
deriving DecidableEq, Repr

/-- The mutable interaction globals of `main.js` that the annotation handlers
share: `currentAnnotations` (visual state per group), `hoveredAnnotation`
(modelled by its index) and `selectedAnnotationIndex` (−1 when none). -/
structure SceneState where
  annotations : List AnnState
  hoveredAnn : Option Nat
  selectedIdx : Int
deriving DecidableEq, Repr

/-- The scene right after `addAnnotations` created `n` groups: every group at
scale 1, opacity 0.01, idle targets; nothing hovered, nothing selected. -/
def initScene (n : Nat) : SceneState :=
  { annotations := List.replicate n initAnn, hoveredAnn := none, selectedIdx := -1 }

/-- `onAnnotationHover(event)`.  `inViewport` is the bounding-rect containment
check; when the pointer is outside and something was hovered, its scale and
fill opacity are snapped to 1 / 0.01 and the hovered reference cleared (the
targets are not touched).  Inside the viewport (camera present), the previously
hovered group, if different from the ray-cast hit, gets idle targets, and a
newly hit group gets the hovered-tier targets. -/
def onAnnotationHover (viewerPresent inViewport : Bool) (intersected : Option Nat)
    (s : SceneState) : SceneState :=
  if inViewport = false then
    match s.hoveredAnn with
    | some h =>
        { s with annotations := updAnn (setCurrents 1 (1/100)) h s.annotations,
                 hoveredAnn := none }
    | none => s
  else if viewerPresent = false then s
  else
    let s1 :=
      match s.hoveredAnn with
      | some h =>
          if intersected ≠ some h then
            { s with annotations := updAnn (setTargets 1 (1/100)) h s.annotations,
                     hoveredAnn := none }
          else s
      | none => s
    match intersected with
    | some g =>
        if s1.hoveredAnn ≠ some g then
          { s1 with annotations := updAnn (setTargets (3/2) (4/5)) g s1.annotations,
                    hoveredAnn := some g }
        else s1
    | none => s1

/-- `toggleAnnotationsMenu(false)`: resets every annotation's targets to the
idle tier and clears `selectedAnnotationIndex`. -/
def closeAnnotationsMenu (s : SceneState) : SceneState :=
  { s with annotations := s.annotations.map (setTargets 1 (1/100)),
           selectedIdx := -1 }

/-- The `mouseenter` handler of a menu row: hovered-tier targets for that
index (guarded by `currentAnnotations[index]`, which `updAnn` reproduces by
being the identity out of range). -/
def menuItemEnter (s : SceneState) (idx : Nat) : SceneState :=
  { s with annotations := updAnn (setTargets (3/2) (4/5)) idx s.annotations }

/-- The `mouseleave` handler of a menu row: idle targets for that index, but
only when the row is not the selected annotation. -/
def menuItemLeave (s : SceneState) (idx : Nat) : SceneState :=
  if (idx : Int) ≠ s.selectedIdx then
    { s with annotations := updAnn (setTargets 1 (1/100)) idx s.annotations }
  else s

/-- The camera move request issued inside `highlightAnnotation`: present only
when `currentAnnotationsData[index]` exists and carries both `cameraPos` and
`cameraLookAt`. -/
def camMoveFor (annsData : List AnnData) (idx : Nat) : Option (Vec3 × Vec3) :=
  match annsData[idx]? with
  | some d =>
      match d.cameraPos, d.cameraLookAt with
      | some p, some l => some (p, l)
      | _, _ => none
  | none => none

/-- `highlightAnnotation(index)` (source line 746): records the selected index,
resets every annotation to idle targets, and — when `currentAnnotations[index]`
exists — promotes that annotation to the selected tier and possibly requests a
camera move.  Returns the new scene state together with the camera move
request (`none` when no tween is started). -/
def highlightAnn (s : SceneState) (idx : Nat) (annsData : List AnnData) :
    SceneState × Option (Vec3 × Vec3) :=
  if idx < s.annotations.length then
    ({ s with selectedIdx := (idx : Int),
              annotations := updAnn (setTargets 2 1) idx
                (s.annotations.map (setTargets 1 (1/100))) },
     camMoveFor annsData idx)
  else
    ({ s with selectedIdx := (idx : Int),
              annotations := s.annotations.map (setTargets 1 (1/100)) }, none)

/-- The operations that write annotation targets. -/
inductive SceneOp where
  | hover (viewerPresent inViewport : Bool) (intersected : Option Nat)
  | highlight (idx : Nat) (annsData : List AnnData)
  | menuClose
  | menuEnter (idx : Nat)
  | menuLeave (idx : Nat)
deriving Repr

/-- One interaction step on the scene state. -/
def sceneStep (s : SceneState) : SceneOp → SceneState
  | .hover vp iv i => onAnnotationHover vp iv i s
  | .highlight idx annsData => (highlightAnn s idx annsData).1
  | .menuClose => closeAnnotationsMenu s
  | .menuEnter idx => menuItemEnter s idx
  | .menuLeave idx => menuItemLeave s idx

/-- The three semantic tiers of targets: idle (1.0, 0.01), hovered (1.5, 0.8),
selected (2.0, 1.0). -/
def isTier (p : ℚ × ℚ) : Prop :=
  p = (1, 1/100) ∨ p = (3/2, 4/5) ∨ p = (2, 1)

/-- The target pair of the annotation at index `i` (idle pair out of range). -/
def targetsAt (s : SceneState) (i : Nat) : ℚ × ℚ :=
  ((s.annotations.getD i dAnn).targetScale, (s.annotations.getD i dAnn).targetOpacity)

/-- The live scale/opacity pair of the annotation at index `i`. -/
def currentAt (s : SceneState) (i : Nat) : ℚ × ℚ :=
  ((s.annotations.getD i dAnn).currentScale, (s.annotations.getD i dAnn).currentOpacity)

/-- Every annotation's targets sit on one of the three tiers. -/
def TiersOk (s : SceneState) : Prop :=
  ∀ i : Nat, isTier (targetsAt s i)

/-- The per-annotation smoothing of `animate()`: when the residual exceeds
0.001, move by `THREE.MathUtils.lerp(current, target, 0.1)`; otherwise leave
the value untouched. -/
def animStepVal (current target : ℚ) : ℚ :=
  if 1/1000 < |current - target| then mathLerp current target (1/10) else current

/-- One `animate()` pass over a single annotation's scale and opacity. -/
def animateAnn (a : AnnState) : AnnState :=
  { a with currentScale := animStepVal a.currentScale a.targetScale,
           currentOpacity := animStepVal a.currentOpacity a.targetOpacity }

/-- The zoom lock globals plus the orbit-control distance bounds
(`maxDistance = none` models `Infinity`). -/
structure ZoomState where
  zoomLockEnabled : Bool
  zoomMinDistance : ℚ
  zoomMaxDistance : ℚ
  controlsPresent : Bool
  minDistance : ℚ
  maxDistance : Option ℚ
deriving DecidableEq, Repr

/-- `window.setZoomLock(minDist, maxDist)`: records the fallback range, and when
the viewer controls exist writes both distance bounds unconditionally. -/
def setZoomLock (s : ZoomState) (minDist maxDist : ℚ) : ZoomState :=
  let s1 := { s with zoomLockEnabled := true, zoomMinDistance := minDist,
                     zoomMaxDistance := maxDist }
  if s1.controlsPresent then
    { s1 with minDistance := minDist, maxDistance := some maxDist }
  else s1

/-- `window.clearZoomLock()`: disables the fallback and, when controls exist,
removes the limits (0 / Infinity). -/
def clearZoomLock (s : ZoomState) : ZoomState :=
  let s1 := { s with zoomLockEnabled := false }
  if s1.controlsPresent then
    { s1 with minDistance := 0, maxDistance := none }
  else s1

/-- A stage descriptor's constraint fields from `stages.json`. -/
structure StageCfg where
  panLock : Bool
  rotationLock : Bool
  minZoom : Option ℚ
  maxZoom : Option ℚ
deriving DecidableEq, Repr

/-- The zoom part of `loadStage`: a fresh viewer provides default bounds
(0, Infinity); then stage-specific `minZoom`/`maxZoom` are applied when both
are defined, else the global fallback when enabled, else the defaults stay. -/
def applyStageZoom (s : ZoomState) (st : StageCfg) : ZoomState :=
  let s0 := { s with controlsPresent := true, minDistance := 0, maxDistance := none }
  match st.minZoom, st.maxZoom with
  | some mn, some mx => { s0 with minDistance := mn, maxDistance := some mx }
  | _, _ =>
      if s0.zoomLockEnabled then
        { s0 with minDistance := s0.zoomMinDistance,
                  maxDistance := some s0.zoomMaxDistance }
      else s0

/-- Stage loading state: the `isLoading` guard and which stage's scene is
currently displayed (`none` while no viewer canvas exists). -/
structure LoadState where
  isLoading : Bool
  displayedStage : Option Nat
deriving DecidableEq, Repr

/-- The synchronous prefix of `loadStage(index)`: when a load is in flight the
call returns immediately (`false`, state untouched); otherwise the guard is
taken and the existing viewer is disposed and its canvas removed before any
new data arrives. -/
def loadStageStart (s : LoadState) : LoadState × Bool :=
  if s.isLoading then (s, false)
  else ({ isLoading := true, displayedStage := none }, true)

/-- The resumption of `loadStage(index)` after the awaited work: on success the
new stage's scene is shown; on failure only an alert fires; either way the
`finally` block clears `isLoading`. -/
def loadStageFinish (s : LoadState) (idx : Nat) (success : Bool) : LoadState :=
  if success then { isLoading := false, displayedStage := some idx }
  else { s with isLoading := false }

/-- The pointer-routing state: the scene interaction globals together with the
movable dot (`movableDot`, its `visible` flag, `isDraggingDot`) and
`viewer.controls.enabled`. -/
structure PtrState where
  scene : SceneState
  dotPresent : Bool
  dotVisible : Bool
  isDraggingDot : Bool
  controlsEnabled : Bool
deriving DecidableEq, Repr

/-- One pointer-down event, with the ray-cast results resolved: whether the
point lies in the stages menu or the reserved top-right button area, whether
the ray hits the movable dot, and the first annotation group it hits. -/
structure PdEvent where
  inStagesMenu : Bool
  inButtonArea : Bool
  hitsDot : Bool
  annHit : Option Nat
deriving DecidableEq, Repr

/-- `onAnnotationPointerDown(event)`: returns the new state and whether the
handler called `stopImmediatePropagation`.  It defers to the stages menu and
the top-right button area, skips annotation handling when the dot is present,
visible and ray-hit, and otherwise selects the hit annotation (disabling the
orbit controls) and stops propagation.  An annotation hit always has a valid
index since the ray cast runs against `currentAnnotations` itself. -/
def onAnnotationPointerDown (viewerPresent : Bool) (annsData : List AnnData)
    (s : PtrState) (ev : PdEvent) : PtrState × Bool :=
  if viewerPresent = false then (s, false)
  else if ev.inStagesMenu then (s, false)
  else if ev.inButtonArea then (s, false)
  else if s.dotPresent && s.dotVisible && ev.hitsDot then (s, false)
  else
    match ev.annHit with
    | some i =>
        ({ s with controlsEnabled := false,
                  scene := (highlightAnn s.scene i annsData).1 }, true)
    | none => (s, false)

/-- `onDotPointerDown(event)`: guards only on the viewer, camera and the dot's
existence — not its visibility — and on a ray hit begins the drag and disables
the orbit controls. -/
def onDotPointerDown (viewerPresent : Bool) (s : PtrState) (ev : PdEvent) :
    PtrState × Bool :=
  if viewerPresent = false then (s, false)
  else if s.dotPresent = false then (s, false)
  else if ev.hitsDot then
    ({ s with isDraggingDot := true, controlsEnabled := false }, true)
  else (s, false)

/-- The capture-phase dispatch on `viewerContainer`: `onAnnotationPointerDown`
was registered first, so it runs first, and its `stopImmediatePropagation`
prevents `onDotPointerDown` from running at all. -/
def dispatchPointerDown (viewerPresent : Bool) (annsData : List AnnData)
    (s : PtrState) (ev : PdEvent) : PtrState :=
  let r := onAnnotationPointerDown viewerPresent annsData s ev
  if r.2 then r.1 else (onDotPointerDown viewerPresent r.1 ev).1

/-- Fixture: a one-annotation scene whose annotation is selected (tier 2.0/1.0)
and tracked as hovered. -/
def selScene : SceneState :=
  { annotations := [⟨2, 1, 2, 1⟩], hoveredAnn := some 0, selectedIdx := 0 }

/-- Fixture: a one-annotation scene resting at the hovered tier with its live
scale and opacity converged to 1.5 / 0.8. -/
def hovScene : SceneState :=
  { annotations := [⟨3/2, 4/5, 3/2, 4/5⟩], hoveredAnn := some 0, selectedIdx := -1 }

/-- Fixture: pointer state with the dot present but invisible. -/
def hiddenDotPtr : PtrState :=
  { scene := initScene 1, dotPresent := true, dotVisible := false,
    isDraggingDot := false, controlsEnabled := true }

/-- Fixture: a pointer-down outside every reserved zone whose ray hits the dot
and no annotation. -/
def dotOnlyEv : PdEvent :=
  { inStagesMenu := false, inButtonArea := false, hitsDot := true, annHit := none }

/-- Fixture: zoom state before any stage load or runtime toggle. -/
def zInit : ZoomState :=
  { zoomLockEnabled := false, zoomMinDistance := 2, zoomMaxDistance := 50,
    controlsPresent := false, minDistance := 0, maxDistance := none }

/-- Fixture: a stage that defines its own zoom range 5 … 20. -/
def stageZoom520 : StageCfg :=
  { panLock := false, rotationLock := false, minZoom := some 5, maxZoom := some 20 }

/-- The target pair stored at one position of an annotation list. -/
def tpair (l : List AnnState) (i : Nat) : ℚ × ℚ :=
  ((l.getD i dAnn).targetScale, (l.getD i dAnn).targetOpacity)

theorem Vec3.ext3 {a b : Vec3} (hx : a.x = b.x) (hy : a.y = b.y) (hz : a.z = b.z) :
    a = b := by
  cases a; cases b; simp_all

theorem vecLerp_zero (a b : Vec3) : vecLerp a b 0 = a := by
  apply Vec3.ext3 <;> simp [vecLerp]

theorem vecLerp_one (a b : Vec3) : vecLerp a b 1 = b := by
  apply Vec3.ext3 <;> simp [vecLerp]

theorem smoothstepQ_zero : smoothstepQ 0 0 1 = 0 := by norm_num [smoothstepQ]

theorem smoothstepQ_one : smoothstepQ 1 0 1 = 1 := by norm_num [smoothstepQ]

/-- C1: while the tween is active, each `animate()` pass computes the clamped
progress `t = clamp((now - startTime) / duration, 0, 1)` (the source's
`Math.min(1, ...)` coincides with the clamp since `performance.now()` never
precedes the recorded start), eases it with smoothstep, interpolates the camera
position and the orbit target together by the eased parameter from the captured
start pose to the requested end pose, reports the start pose at `t = 0`,
stays active exactly while `t < 1`, and once the elapsed time reaches the
duration lands exactly on the requested end position and look-at with the
tween deactivated. -/
theorem tween_step_eases_and_ends_exact (tw : TweenState) (cam : CameraState)
    (now : ℚ) (hact : tw.active = true) (hstart : tw.startTime ≤ now)
    (hdur : 0 < tw.duration) :
    min 1 ((now - tw.startTime) / tw.duration)
        = max 0 (min 1 ((now - tw.startTime) / tw.duration))
    ∧ (tweenStep tw cam now).2.position
        = vecLerp tw.startPos tw.endPos
            (smoothstepQ (min 1 ((now - tw.startTime) / tw.duration)) 0 1)
    ∧ (tweenStep tw cam now).2.target
        = vecLerp tw.startTarget tw.endTarget
            (smoothstepQ (min 1 ((now - tw.startTime) / tw.duration)) 0 1)
    ∧ ((tweenStep tw cam now).1.active = true
        ↔ min 1 ((now - tw.startTime) / tw.duration) < 1)
    ∧ (tw.duration ≤ now - tw.startTime →
        (tweenStep tw cam now).2.position = tw.endPos
        ∧ (tweenStep tw cam now).2.target = tw.endTarget
        ∧ (tweenStep tw cam now).1.active = false)
    ∧ (now = tw.startTime →
        (tweenStep tw cam now).2.position = tw.startPos
        ∧ (tweenStep tw cam now).2.target = tw.startTarget) := by
  have hx : 0 ≤ (now - tw.startTime) / tw.duration :=
    div_nonneg (by linarith) hdur.le
  refine ⟨(max_eq_right (le_min (by norm_num) hx)).symm, ?_, ?_, ?_, ?_, ?_⟩
  · simp [tweenStep, hact]
  · simp [tweenStep, hact]
  · have hsplit : (tweenStep tw cam now).1.active
        = if 1 ≤ min 1 ((now - tw.startTime) / tw.duration) then false else tw.active := by
      by_cases h1 : 1 ≤ min 1 ((now - tw.startTime) / tw.duration) <;>
        simp [tweenStep, hact, h1]
    rw [hsplit, hact]
    by_cases h1 : 1 ≤ min 1 ((now - tw.startTime) / tw.duration)
    · simp [h1, not_lt.mpr h1]
    · simp [h1, lt_of_not_le h1]
  · intro hdone
    have h1x : 1 ≤ (now - tw.startTime) / tw.duration := by
      rw [le_div_iff₀ hdur]; linarith
    have ht : min 1 ((now - tw.startTime) / tw.duration) = 1 := min_eq_left h1x
    constructor
    · simp [tweenStep, hact, ht, smoothstepQ_one, vecLerp_one]
    constructor
    · simp [tweenStep, hact, ht, smoothstepQ_one, vecLerp_one]
    · simp [tweenStep, hact, ht]
  · intro hnow
    have ht : min 1 ((now - tw.startTime) / tw.duration) = 0 := by
      rw [hnow]; simp
    constructor
    · simp [tweenStep, hact, ht, smoothstepQ_zero, vecLerp_zero]
    · simp [tweenStep, hact, ht, smoothstepQ_zero, vecLerp_zero]

/-- Witness for C1: a tween from (0,0,0)/(1,1,1) to (2,2,2)/(3,3,3), started at
time 100 with duration 200, evaluated at time 300: it lands exactly on the end
pose and deactivates. -/
theorem tween_step_ends_exact_witness :
    (tweenStep (moveCameraTo ⟨⟨0,0,0⟩,⟨1,1,1⟩⟩ ⟨2,2,2⟩ ⟨3,3,3⟩ 100 200)
        ⟨⟨0,0,0⟩,⟨1,1,1⟩⟩ 300).2.position = ⟨2,2,2⟩
    ∧ (tweenStep (moveCameraTo ⟨⟨0,0,0⟩,⟨1,1,1⟩⟩ ⟨2,2,2⟩ ⟨3,3,3⟩ 100 200)
        ⟨⟨0,0,0⟩,⟨1,1,1⟩⟩ 300).2.target = ⟨3,3,3⟩
    ∧ (tweenStep (moveCameraTo ⟨⟨0,0,0⟩,⟨1,1,1⟩⟩ ⟨2,2,2⟩ ⟨3,3,3⟩ 100 200)
        ⟨⟨0,0,0⟩,⟨1,1,1⟩⟩ 300).1.active = false := by
  have h := tween_step_eases_and_ends_exact
    (moveCameraTo ⟨⟨0,0,0⟩,⟨1,1,1⟩⟩ ⟨2,2,2⟩ ⟨3,3,3⟩ 100 200) ⟨⟨0,0,0⟩,⟨1,1,1⟩⟩ 300
    rfl (by norm_num [moveCameraTo]) (by norm_num [moveCameraTo])
  have h2 := h.2.2.2.2.1 (by norm_num [moveCameraTo])
  exact ⟨h2.1, h2.2.1, h2.2.2⟩

/-- C2: with pan lock active and the viewer present, whenever the orbit
target's y exceeds 0 the constraint pass clamps the target's y to exactly 0,
lowers the camera's y by exactly the target's original y, keeps the
camera-to-target offset vector unchanged and touches no other coordinate;
when the target's y is not above 0 the pass changes nothing. -/
theorem pan_lock_clamps_and_preserves_offset (cam : CameraState) :
    (0 < cam.target.y →
        (panLockStep true true cam).target.y = 0
        ∧ (panLockStep true true cam).position.y = cam.position.y - cam.target.y
        ∧ vecSub (panLockStep true true cam).position (panLockStep true true cam).target
            = vecSub cam.position cam.target
        ∧ (panLockStep true true cam).position.x = cam.position.x
        ∧ (panLockStep true true cam).position.z = cam.position.z
        ∧ (panLockStep true true cam).target.x = cam.target.x
        ∧ (panLockStep true true cam).target.z = cam.target.z)
    ∧ (¬ 0 < cam.target.y → panLockStep true true cam = cam) := by
  constructor
  · intro hy
    refine ⟨?_, ?_, ?_, ?_, ?_, ?_, ?_⟩ <;>
      simp [panLockStep, hy, vecSub]
  · intro hy
    simp [panLockStep, hy]

/-- Witness for C2: camera (1,5,1) with orbit target (0,3,0): the pass moves
the target to (0,0,0) and the camera to (1,2,1). -/
theorem pan_lock_witness :
    (panLockStep true true ⟨⟨1,5,1⟩,⟨0,3,0⟩⟩).target.y = 0
    ∧ (panLockStep true true ⟨⟨1,5,1⟩,⟨0,3,0⟩⟩).position.y = 5 - 3
    ∧ vecSub (panLockStep true true ⟨⟨1,5,1⟩,⟨0,3,0⟩⟩).position
        (panLockStep true true ⟨⟨1,5,1⟩,⟨0,3,0⟩⟩).target = vecSub ⟨1,5,1⟩ ⟨0,3,0⟩ := by
  have h := (pan_lock_clamps_and_preserves_offset ⟨⟨1,5,1⟩,⟨0,3,0⟩⟩).1 (by norm_num)
  exact ⟨h.1, h.2.1, h.2.2.1⟩

/-- C4 (amended): the per-frame smoothing of `animate()` moves a live value
toward its target by exactly 10% of the remaining distance when the residual
exceeds 0.001, leaves it unchanged once the residual is at or below 0.001,
approaches the target monotonically from either side, never overshoots it, and
never increases the residual. -/
theorem anim_step_tenpercent_no_overshoot (c t : ℚ) :
    (1/1000 < |c - t| → animStepVal c t = c + (t - c) * (1/10))
    ∧ (|c - t| ≤ 1/1000 → animStepVal c t = c)
    ∧ (c ≤ t → c ≤ animStepVal c t ∧ animStepVal c t ≤ t)
    ∧ (t ≤ c → t ≤ animStepVal c t ∧ animStepVal c t ≤ c)
    ∧ |animStepVal c t - t| ≤ |c - t| := by
  by_cases h : 1/1000 < |c - t|
  · have hval : animStepVal c t = c + (t - c) * (1/10) := by
      rw [animStepVal, if_pos h, mathLerp]; ring
    refine ⟨fun _ => hval, fun hle => absurd h (not_lt.mpr hle), ?_, ?_, ?_⟩
    · intro hct
      rw [hval]
      constructor <;> nlinarith
    · intro htc
      rw [hval]
      constructor <;> nlinarith
    · rw [hval]
      have : c + (t - c) * (1/10) - t = (c - t) * (9/10) := by ring
      rw [this, abs_mul]
      have h9 : |(9 : ℚ)/10| = 9/10 := by norm_num
      rw [h9]
      nlinarith [abs_nonneg (c - t)]
  · have hval : animStepVal c t = c := by rw [animStepVal, if_neg h]
    refine ⟨fun hgt => absurd hgt h, fun _ => hval, ?_, ?_, ?_⟩
    · intro hct; rw [hval]; exact ⟨le_refl c, hct⟩
    · intro htc; rw [hval]; exact ⟨htc, le_refl c⟩
    · rw [hval]

/-- Witness for C4 (amended): from 2 toward target 1 one frame moves to 1.9;
at residual 0.001 the value stays put. -/
theorem anim_step_witness :
    animStepVal 2 1 = 2 + (1 - 2) * (1/10)
    ∧ animStepVal (1 + 1/1000) 1 = 1 + 1/1000
    ∧ (1 ≤ (2 : ℚ) → 1 ≤ animStepVal 2 1 ∧ animStepVal 2 1 ≤ 2) := by
  refine ⟨(anim_step_tenpercent_no_overshoot 2 1).1 (by rw [show (2 : ℚ) - 1 = 1 by ring]; norm_num),
    (anim_step_tenpercent_no_overshoot (1 + 1/1000) 1).2.1 ?_,
    fun h => (anim_step_tenpercent_no_overshoot 2 1).2.2.2.1 h⟩
  rw [show (1 : ℚ) + 1/1000 - 1 = 1/1000 by ring,
    abs_of_nonneg (by norm_num : (0 : ℚ) ≤ 1/1000)]

/-- C4 counterexample: the outside-viewport branch of `onAnnotationHover`
snaps the hovered annotation's live scale and fill opacity from 1.5 / 0.8
straight to 1 / 0.01 in a single call — a discontinuous jump, not a 10% step
(from 1.5 the smoothing step toward target 1.5 stays at 1.5), refuting "the
visual state is never snapped discontinuously to a new value". -/
theorem hover_exit_snaps_currents :
    currentAt hovScene 0 = (3/2, 4/5)
    ∧ currentAt (onAnnotationHover true false none hovScene) 0 = (1, 1/100)
    ∧ animStepVal (3/2) (3/2) = 3/2
    ∧ animStepVal (4/5) (4/5) = 4/5
    ∧ ((1 : ℚ), (1 : ℚ)/100) ≠ ((3 : ℚ)/2, (4 : ℚ)/5) := by
  refine ⟨?_, ?_, ?_, ?_, ?_⟩
  · simp [currentAt, hovScene, dAnn, initAnn]
  · simp [currentAt, onAnnotationHover, hovScene, updAnn, setCurrents, dAnn, initAnn]
  · norm_num [animStepVal]
  · norm_num [animStepVal]
  · norm_num

theorem length_updAnn (f : α → α) : ∀ (j : Nat) (l : List α),
    (updAnn f j l).length = l.length
  | j, [] => by cases j <;> rfl
  | 0, _ :: _ => rfl
  | j + 1, a :: as => by simp [updAnn, length_updAnn f j as]

theorem getD_updAnn (f : α → α) (d : α) : ∀ (j i : Nat) (l : List α),
    (updAnn f j l).getD i d
      = if i = j ∧ j < l.length then f (l.getD i d) else l.getD i d
  | j, i, [] => by cases j <;> simp [updAnn]
  | 0, 0, a :: as => by simp [updAnn]
  | 0, i + 1, a :: as => by simp [updAnn]
  | j + 1, 0, a :: as => by simp [updAnn]
  | j + 1, i + 1, a :: as => by
      simp only [updAnn, List.getD_cons_succ, List.length_cons]
      rw [getD_updAnn f d j i as]
      by_cases hij : i = j
      · subst hij
        by_cases hj : i < as.length <;> simp [hj, Nat.succ_lt_succ_iff]
      · simp [hij]

theorem getD_map_set (f : α → α) (d : α) : ∀ (i : Nat) (l : List α),
    (l.map f).getD i d = if i < l.length then f (l.getD i d) else d
  | i, [] => by simp
  | 0, a :: as => by simp
  | i + 1, a :: as => by
      simp only [List.map_cons, List.getD_cons_succ, List.length_cons]
      rw [getD_map_set f d i as]
      simp [Nat.succ_lt_succ_iff]

theorem getD_replicate_ann (a d : α) : ∀ (n i : Nat),
    (List.replicate n a).getD i d = if i < n then a else d
  | 0, i => by simp
  | n + 1, 0 => by simp [List.replicate]
  | n + 1, i + 1 => by
      simp only [List.replicate, List.getD_cons_succ]
      rw [getD_replicate_ann a d n i]
      simp [Nat.succ_lt_succ_iff]

theorem targetsAt_eq_tpair (s : SceneState) (i : Nat) :
    targetsAt s i = tpair s.annotations i := rfl

theorem tpair_updSet (a b : ℚ) (j i : Nat) (l : List AnnState) :
    tpair (updAnn (setTargets a b) j l) i = tpair l i
    ∨ tpair (updAnn (setTargets a b) j l) i = (a, b) := by
  unfold tpair
  rw [getD_updAnn]
  split
  · right; simp [setTargets]
  · left; rfl

theorem tpair_updCurr (c o : ℚ) (j i : Nat) (l : List AnnState) :
    tpair (updAnn (setCurrents c o) j l) i = tpair l i := by
  unfold tpair
  rw [getD_updAnn]
  split
  · simp [setCurrents]
  · rfl

theorem tpair_mapSet (a b : ℚ) (i : Nat) (l : List AnnState) :
    tpair (l.map (setTargets a b)) i = tpair l i
    ∨ tpair (l.map (setTargets a b)) i = (a, b) := by
  unfold tpair
  rw [getD_map_set]
  split
  · right; simp [setTargets]
  · left
    rw [List.getD_eq_default _ _ (not_lt.mp (by assumption))]

theorem tpair_updSet_eq (a b : ℚ) (j i : Nat) (l : List AnnState) :
    tpair (updAnn (setTargets a b) j l) i
      = if i = j ∧ j < l.length then (a, b) else tpair l i := by
  unfold tpair
  rw [getD_updAnn]
  split
  · simp [setTargets]
  · rfl

theorem tpair_mapSet_eq (a b : ℚ) (i : Nat) (l : List AnnState)
    (hd : (dAnn.targetScale, dAnn.targetOpacity) = (a, b)) :
    tpair (l.map (setTargets a b)) i = (a, b) := by
  unfold tpair
  rw [getD_map_set]
  split
  · simp [setTargets]
  · exact hd

theorem highlight_selectedIdx (s : SceneState) (idx : Nat) (d : List AnnData) :
    (highlightAnn s idx d).1.selectedIdx = (idx : Int) := by
  unfold highlightAnn
  split <;> rfl

theorem highlight_length (s : SceneState) (idx : Nat) (d : List AnnData) :
    (highlightAnn s idx d).1.annotations.length = s.annotations.length := by
  unfold highlightAnn
  split
  · simp [length_updAnn]
  · simp

theorem tpair_highlight_eq (s : SceneState) (idx : Nat) (d : List AnnData)
    (h : idx < s.annotations.length) (i : Nat) :
    targetsAt (highlightAnn s idx d).1 i = if i = idx then (2, 1) else (1, 1/100) := by
  unfold highlightAnn
  rw [if_pos h, targetsAt_eq_tpair]
  show tpair (updAnn (setTargets 2 1) idx (s.annotations.map (setTargets 1 (1/100)))) i = _
  rw [tpair_updSet_eq, List.length_map]
  by_cases hi : i = idx
  · simp [hi, h]
  · rw [if_neg (by simp [hi]), if_neg hi]
    exact tpair_mapSet_eq 1 (1/100) i s.annotations rfl

theorem tpair_highlight_oor (s : SceneState) (idx : Nat) (d : List AnnData)
    (h : s.annotations.length ≤ idx) (i : Nat) :
    targetsAt (highlightAnn s idx d).1 i = (1, 1/100) := by
  unfold highlightAnn
  rw [if_neg (not_lt.mpr h), targetsAt_eq_tpair]
  exact tpair_mapSet_eq 1 (1/100) i s.annotations rfl

theorem highlight_oor_none (s : SceneState) (idx : Nat) (d : List AnnData)
    (h : s.annotations.length ≤ idx) :
    (highlightAnn s idx d).2 = none := by
  unfold highlightAnn
  rw [if_neg (not_lt.mpr h)]

theorem tpair_hover (vp iv : Bool) (insec : Option Nat) (s : SceneState) (i : Nat) :
    tpair (onAnnotationHover vp iv insec s).annotations i = tpair s.annotations i
    ∨ tpair (onAnnotationHover vp iv insec s).annotations i = (1, 1/100)
    ∨ tpair (onAnnotationHover vp iv insec s).annotations i = (3/2, 4/5) := by
  cases iv with
  | false =>
      cases hh : s.hoveredAnn with
      | none => simp [onAnnotationHover, hh]
      | some h =>
          simp only [onAnnotationHover, hh, if_pos rfl]
          left
          exact tpair_updCurr 1 (1/100) h i s.annotations
  | true =>
      cases vp with
      | false => simp [onAnnotationHover]
      | true =>
          cases hh : s.hoveredAnn with
          | none =>
              cases hin : insec with
              | none => simp [onAnnotationHover, hh]
              | some g =>
                  simp only [onAnnotationHover, hh, hin]
                  simp only [reduceIte, ne_eq, reduceCtorEq, not_false_eq_true, if_pos]
                  rcases tpair_updSet (3/2) (4/5) g i s.annotations with h1 | h1
                  · left; exact h1
                  · right; right; exact h1
          | some h =>
              cases hin : insec with
              | none =>
                  simp only [onAnnotationHover, hh, hin]
                  simp only [reduceIte, ne_eq, reduceCtorEq, not_false_eq_true, if_pos]
                  rcases tpair_updSet 1 (1/100) h i s.annotations with h1 | h1
                  · left; exact h1
                  · right; left; exact h1
              | some g =>
                  by_cases hgh : g = h
                  · subst hgh
                    simp [onAnnotationHover, hh, hin]
                  · simp only [onAnnotationHover, hh, hin]
                    have hne : (some g ≠ some h) = True := by simp [hgh]
                    simp only [reduceIte, ne_eq, Option.some.injEq, hgh,
                      not_false_eq_true, if_pos, reduceCtorEq]
                    rcases tpair_updSet (3/2) (4/5) g i
                        (updAnn (setTargets 1 (1/100)) h s.annotations) with h1 | h1
                    · rcases tpair_updSet 1 (1/100) h i s.annotations with h2 | h2
                      · left; rw [h1, h2]
                      · right; left; rw [h1, h2]
                    · right; right; exact h1

/-- C3: every write of annotation targets — creation, canvas hover entry and
exit, menu-row hover entry and exit, selection, menu close — lands on one of
exactly three tiers (1.0, 0.01), (1.5, 0.8), (2.0, 1.0): each operation either
leaves an annotation's target pair unchanged or writes a tier value, and along
any operation sequence from a freshly created annotation set every target pair
always sits on a tier. -/
theorem target_tiers_invariant :
    (∀ (s : SceneState) (op : SceneOp) (i : Nat),
        targetsAt (sceneStep s op) i = targetsAt s i
        ∨ isTier (targetsAt (sceneStep s op) i))
    ∧ (∀ (n : Nat) (ops : List SceneOp),
        TiersOk (List.foldl sceneStep (initScene n) ops)) := by
  have key : ∀ (s : SceneState) (op : SceneOp) (i : Nat),
      targetsAt (sceneStep s op) i = targetsAt s i
      ∨ isTier (targetsAt (sceneStep s op) i) := by
    intro s op i
    cases op with
    | hover vp iv insec =>
        rcases tpair_hover vp iv insec s i with h | h | h
        · left; exact h
        · right; rw [targetsAt_eq_tpair]; exact Or.inl h
        · right; rw [targetsAt_eq_tpair]; exact Or.inr (Or.inl h)
    | highlight idx annsData =>
        right
        by_cases h : idx < s.annotations.length
        · rw [show sceneStep s (SceneOp.highlight idx annsData)
              = (highlightAnn s idx annsData).1 from rfl,
            tpair_highlight_eq s idx annsData h i]
          by_cases hi : i = idx
          · rw [if_pos hi]; exact Or.inr (Or.inr rfl)
          · rw [if_neg hi]; exact Or.inl rfl
        · rw [show sceneStep s (SceneOp.highlight idx annsData)
              = (highlightAnn s idx annsData).1 from rfl,
            tpair_highlight_oor s idx annsData (not_lt.mp h) i]
          exact Or.inl rfl
    | menuClose =>
        rcases tpair_mapSet 1 (1/100) i s.annotations with h | h
        · left; exact h
        · right; rw [targetsAt_eq_tpair]; exact Or.inl h
    | menuEnter idx =>
        rcases tpair_updSet (3/2) (4/5) idx i s.annotations with h | h
        · left; exact h
        · right; rw [targetsAt_eq_tpair]; exact Or.inr (Or.inl h)
    | menuLeave idx =>
        by_cases hsel : (idx : Int) ≠ s.selectedIdx
        · rw [show sceneStep s (SceneOp.menuLeave idx) = menuItemLeave s idx from rfl,
            menuItemLeave, if_pos hsel]
          rcases tpair_updSet 1 (1/100) idx i s.annotations with h | h
          · left; exact h
          · right; rw [targetsAt_eq_tpair]; exact Or.inl h
        · rw [show sceneStep s (SceneOp.menuLeave idx) = menuItemLeave s idx from rfl,
            menuItemLeave, if_neg hsel]
          left; rfl
  refine ⟨key, ?_⟩
  have init : ∀ (n i : Nat), targetsAt (initScene n) i = (1, 1/100) := by
    intro n i
    rw [targetsAt_eq_tpair]
    show tpair (List.replicate n initAnn) i = (1, 1/100)
    unfold tpair
    rw [getD_replicate_ann]
    split <;> rfl
  have pres : ∀ (s : SceneState) (op : SceneOp), TiersOk s → TiersOk (sceneStep s op) := by
    intro s op hs i
    rcases key s op i with h | h
    · rw [h]; exact hs i
    · exact h
  have aux : ∀ (ops : List SceneOp) (s : SceneState),
      TiersOk s → TiersOk (List.foldl sceneStep s ops) := by
    intro ops
    induction ops with
    | nil => intro s hs; exact hs
    | cons op rest ih => intro s hs; exact ih (sceneStep s op) (pres s op hs)
  intro n ops
  exact aux ops (initScene n) (fun i => show isTier (targetsAt (initScene n) i)
    from Or.inl (init n i))

/-- C5: for two distinct valid indices A and B, calling `highlightAnnotation`
on A and then on B leaves exactly B at the selected tier (2.0, 1.0) with A back
at the idle tier (1.0, 0.01), records B as the selected index, and after each
of the two calls no annotation other than the just-selected one sits at the
selected tier. -/
theorem select_then_select_unique_selected (s : SceneState) (dA dB : List AnnData)
    (A B : Nat) (hA : A < s.annotations.length) (hB : B < s.annotations.length)
    (hAB : A ≠ B) :
    ((highlightAnn (highlightAnn s A dA).1 B dB).1.selectedIdx = (B : Int))
    ∧ targetsAt (highlightAnn (highlightAnn s A dA).1 B dB).1 B = (2, 1)
    ∧ targetsAt (highlightAnn (highlightAnn s A dA).1 B dB).1 A = (1, 1/100)
    ∧ targetsAt (highlightAnn s A dA).1 A = (2, 1)
    ∧ (∀ i, i ≠ A → targetsAt (highlightAnn s A dA).1 i ≠ (2, 1))
    ∧ (∀ i, i ≠ B → targetsAt (highlightAnn (highlightAnn s A dA).1 B dB).1 i ≠ (2, 1)) := by
  have hB1 : B < (highlightAnn s A dA).1.annotations.length := by
    rw [highlight_length]; exact hB
  refine ⟨highlight_selectedIdx _ B dB, ?_, ?_, ?_, ?_, ?_⟩
  · rw [tpair_highlight_eq _ B dB hB1 B, if_pos rfl]
  · rw [tpair_highlight_eq _ B dB hB1 A, if_neg hAB]
  · rw [tpair_highlight_eq s A dA hA A, if_pos rfl]
  · intro i hi
    rw [tpair_highlight_eq s A dA hA i, if_neg hi]
    intro hcontr
    have : (1 : ℚ) = 2 := congrArg Prod.fst hcontr
    norm_num at this
  · intro i hi
    rw [tpair_highlight_eq _ B dB hB1 i, if_neg hi]
    intro hcontr
    have : (1 : ℚ) = 2 := congrArg Prod.fst hcontr
    norm_num at this

/-- Witness for C5: on a fresh two-annotation scene, selecting 0 then 1 leaves
index 1 selected at tier (2, 1), index 0 at idle, and index 0 not at the
selected tier after the second call. -/
theorem select_then_select_witness :
    ((highlightAnn (highlightAnn (initScene 2) 0 []).1 1 []).1.selectedIdx = (1 : Int))
    ∧ targetsAt (highlightAnn (highlightAnn (initScene 2) 0 []).1 1 []).1 1 = (2, 1)
    ∧ targetsAt (highlightAnn (highlightAnn (initScene 2) 0 []).1 1 []).1 0 = (1, 1/100)
    ∧ targetsAt (highlightAnn (highlightAnn (initScene 2) 0 []).1 1 []).1 0 ≠ (2, 1) := by
  have h := select_then_select_unique_selected (initScene 2) [] [] 0 1
    (by simp [initScene]) (by simp [initScene]) (by omega)
  exact ⟨h.1, h.2.1, h.2.2.1, h.2.2.2.2.2 0 (by omega)⟩

/-- C10: calling `highlightAnnotation` with an index that has no annotation in
the current stage is total (no exception), starts no camera tween, yet still
records that index as the selected index and resets every annotation's targets
to the idle tier — an out-of-range selection silently deselects everything. -/
theorem out_of_range_select_deselects_all (s : SceneState) (idx : Nat)
    (d : List AnnData) (h : s.annotations.length ≤ idx) :
    ((highlightAnn s idx d).1.selectedIdx = (idx : Int))
    ∧ ((highlightAnn s idx d).2 = none)
    ∧ (∀ i, targetsAt (highlightAnn s idx d).1 i = (1, 1/100)) := by
  exact ⟨highlight_selectedIdx s idx d, highlight_oor_none s idx d h,
    fun i => tpair_highlight_oor s idx d h i⟩

/-- Witness for C10: selecting index 5 in a one-annotation scene whose
annotation sits at the selected tier records 5, starts no tween, and resets
annotation 0 to idle. -/
theorem out_of_range_select_witness :
    ((highlightAnn selScene 5 []).1.selectedIdx = (5 : Int))
    ∧ ((highlightAnn selScene 5 []).2 = none)
    ∧ targetsAt (highlightAnn selScene 5 []).1 0 = (1, 1/100) := by
  have h := out_of_range_select_deselects_all selScene 5 [] (by simp [selScene])
  exact ⟨h.1, h.2.1, h.2.2 0⟩

/-- C6 counterexample: with annotation 0 selected (targets 2.0 / 1.0, also the
tracked hovered annotation), a canvas pointer move to empty space inside the
viewport (`onAnnotationHover` with no ray hit) lowers the selected annotation's
targets to the idle tier — the canvas hover-exit path never consults
`selectedAnnotationIndex`, refuting "hover exit never lowers the selected
annotation's targets to the idle tier". -/
theorem canvas_hover_demotes_selected :
    selScene.selectedIdx = 0
    ∧ targetsAt selScene 0 = (2, 1)
    ∧ targetsAt (onAnnotationHover true true none selScene) 0 = (1, 1/100)
    ∧ ((1 : ℚ), (1 : ℚ)/100) ≠ ((2 : ℚ), (1 : ℚ)) := by
  refine ⟨rfl, ?_, ?_, ?_⟩
  · simp [targetsAt, selScene, dAnn, initAnn]
  · simp [targetsAt, onAnnotationHover, selScene, updAnn, setTargets, dAnn, initAnn]
  · norm_num

/-- C6 (amended): selection suppresses hover-exit demotion only on the two
paths that check for it — the menu row's `mouseleave` is a no-op on the
selected index, and a canvas hover over the annotation already tracked as
hovered (selected or not) changes nothing; but the canvas hover handler is
selection-agnostic: a fresh canvas hover over any annotation not currently
tracked as hovered (including a selected one) rewrites its targets to the
hovered tier 1.5 / 0.8. -/
theorem selected_menu_leave_noop_and_canvas_hover (s : SceneState) (g : Nat) :
    ((g : Int) = s.selectedIdx → menuItemLeave s g = s)
    ∧ (s.hoveredAnn = some g → onAnnotationHover true true (some g) s = s)
    ∧ (s.hoveredAnn = none →
        targetsAt (onAnnotationHover true true (some g) s) g
          = if g < s.annotations.length then ((3 : ℚ)/2, (4 : ℚ)/5) else targetsAt s g) := by
  refine ⟨?_, ?_, ?_⟩
  · intro hsel
    rw [menuItemLeave, if_neg (by simp [hsel])]
  · intro hh
    simp [onAnnotationHover, hh]
  · intro hh
    simp only [onAnnotationHover, hh]
    simp only [reduceIte, ne_eq, reduceCtorEq, not_false_eq_true, if_pos]
    rw [targetsAt_eq_tpair]
    show tpair (updAnn (setTargets (3/2) (4/5)) g s.annotations) g = _
    rw [tpair_updSet_eq]
    by_cases hg : g < s.annotations.length
    · rw [if_pos ⟨rfl, hg⟩, if_pos hg]
    · rw [if_neg (by tauto), if_neg hg, targetsAt_eq_tpair]

/-- Witness for C6 (amended): on the selected one-annotation scene, the menu
mouseleave on index 0 and a canvas hover over the already-hovered index 0 both
leave the state untouched. -/
theorem selected_hover_witness :
    menuItemLeave selScene 0 = selScene
    ∧ onAnnotationHover true true (some 0) selScene = selScene := by
  have h := selected_menu_leave_noop_and_canvas_hover selScene 0
  exact ⟨h.1 rfl, h.2.1 rfl⟩

/-- C7 counterexample: after loading a stage that defines its own zoom range
5 … 20 (bounds applied), a runtime `setZoomLock(1, 100)` rewrites the
orbit-control distance bounds to 1 … 100 anyway — the handler never consults
the active stage — refuting "a runtime toggle of the global fallback leaves the
active bounds unchanged when the stage defines its own zoom range". -/
theorem setZoomLock_overrides_stage_bounds :
    (applyStageZoom zInit stageZoom520).minDistance = 5
    ∧ (applyStageZoom zInit stageZoom520).maxDistance = some 20
    ∧ (setZoomLock (applyStageZoom zInit stageZoom520) 1 100).minDistance = 1
    ∧ (setZoomLock (applyStageZoom zInit stageZoom520) 1 100).maxDistance = some 100
    ∧ (1 : ℚ) ≠ 5 := by
  refine ⟨?_, ?_, ?_, ?_, by norm_num⟩ <;>
    simp [setZoomLock, applyStageZoom, zInit, stageZoom520]

/-- C7 (amended): `setZoomLock` enables the global fallback and, whenever the
orbit controls exist, rewrites the distance bounds unconditionally — even when
the active stage defines its own zoom range (without controls it records the
range only); on stage load the effective bounds follow the precedence
stage-specific over global fallback over the fresh-controls defaults
(0, unrestricted). -/
theorem zoom_bounds_write_and_precedence (s : ZoomState) (st : StageCfg) (mn mx : ℚ) :
    ((setZoomLock s mn mx).zoomLockEnabled = true)
    ∧ (s.controlsPresent = true →
        (setZoomLock s mn mx).minDistance = mn
        ∧ (setZoomLock s mn mx).maxDistance = some mx)
    ∧ (s.controlsPresent = false →
        (setZoomLock s mn mx).minDistance = s.minDistance
        ∧ (setZoomLock s mn mx).maxDistance = s.maxDistance
        ∧ (setZoomLock s mn mx).zoomMinDistance = mn
        ∧ (setZoomLock s mn mx).zoomMaxDistance = mx)
    ∧ (∀ a b, st.minZoom = some a → st.maxZoom = some b →
        (applyStageZoom s st).minDistance = a
        ∧ (applyStageZoom s st).maxDistance = some b)
    ∧ ((st.minZoom = none ∨ st.maxZoom = none) → s.zoomLockEnabled = true →
        (applyStageZoom s st).minDistance = s.zoomMinDistance
        ∧ (applyStageZoom s st).maxDistance = some s.zoomMaxDistance)
    ∧ ((st.minZoom = none ∨ st.maxZoom = none) → s.zoomLockEnabled = false →
        (applyStageZoom s st).minDistance = 0
        ∧ (applyStageZoom s st).maxDistance = none) := by
  obtain ⟨pl, rl, mz, xz⟩ := st
  refine ⟨?_, ?_, ?_, ?_, ?_, ?_⟩
  · by_cases hc : s.controlsPresent <;> simp [setZoomLock, hc]
  · intro hc; simp [setZoomLock, hc]
  · intro hc; simp [setZoomLock, hc]
  · intro a b ha hb
    subst ha; subst hb
    simp [applyStageZoom]
  · intro hnone hen
    cases mz with
    | none => simp [applyStageZoom, hen]
    | some a =>
        cases xz with
        | none => simp [applyStageZoom, hen]
        | some b => simp at hnone
  · intro hnone hen
    cases mz with
    | none => simp [applyStageZoom, hen]
    | some a =>
        cases xz with
        | none => simp [applyStageZoom, hen]
        | some b => simp at hnone

/-- Witness for C7 (amended): with controls present, `setZoomLock 1 100`
writes bounds (1, 100); a stage with range (5, 20) resolves to (5, 20); a
stage with no range and the fallback disabled resolves to (0, unrestricted). -/
theorem zoom_bounds_witness :
    (setZoomLock (applyStageZoom zInit stageZoom520) 1 100).minDistance = 1
    ∧ (setZoomLock (applyStageZoom zInit stageZoom520) 1 100).maxDistance = some 100
    ∧ (applyStageZoom zInit stageZoom520).minDistance = 5
    ∧ (applyStageZoom zInit stageZoom520).maxDistance = some 20
    ∧ (applyStageZoom zInit ⟨true, true, none, none⟩).minDistance = 0
    ∧ (applyStageZoom zInit ⟨true, true, none, none⟩).maxDistance = none := by
  have h1 := zoom_bounds_write_and_precedence (applyStageZoom zInit stageZoom520)
    stageZoom520 1 100
  have h2 := zoom_bounds_write_and_precedence zInit stageZoom520 1 100
  have h3 := zoom_bounds_write_and_precedence zInit ⟨true, true, none, none⟩ 1 100
  have hc : (applyStageZoom zInit stageZoom520).controlsPresent = true := by
    simp [applyStageZoom, zInit, stageZoom520]
  refine ⟨(h1.2.1 hc).1, (h1.2.1 hc).2, ?_, ?_, ?_, ?_⟩
  · exact (h2.2.2.2.1 5 20 rfl rfl).1
  · exact (h2.2.2.2.1 5 20 rfl rfl).2
  · exact (h3.2.2.2.2.2 (Or.inl rfl) rfl).1
  · exact (h3.2.2.2.2.2 (Or.inl rfl) rfl).2

/-- C8 counterexample: starting a load from a state displaying stage 0
disposes the existing viewer at once — in the in-flight state no scene is
displayed any more — refuting "the previous scene remains visible until the
new stage is ready". -/
theorem load_disposes_before_ready :
    (loadStageStart ⟨false, some 0⟩).2 = true
    ∧ (loadStageStart ⟨false, some 0⟩).1.isLoading = true
    ∧ (loadStageStart ⟨false, some 0⟩).1.displayedStage = none
    ∧ (none : Option Nat) ≠ some 0 := by
  refine ⟨?_, ?_, ?_, by simp⟩ <;> simp [loadStageStart]

/-- C8 (amended): while a load is in flight any concurrent `loadStage` call is
rejected outright with no state change (not queued); however the load itself
disposes the previous scene immediately on entry — before the new stage is
ready — so no scene is displayed during the load or after a failed one, and
the new stage's scene appears exactly on success. -/
theorem load_guard_rejects_and_disposes_early (s : LoadState) (idx : Nat) :
    (s.isLoading = true → loadStageStart s = (s, false))
    ∧ (s.isLoading = false →
        (loadStageStart s).1.isLoading = true
        ∧ (loadStageStart s).1.displayedStage = none)
    ∧ ((loadStageFinish (loadStageStart s).1 idx true).displayedStage = some idx
        ∧ (loadStageFinish (loadStageStart s).1 idx true).isLoading = false)
    ∧ (s.isLoading = false →
        (loadStageFinish (loadStageStart s).1 idx false).displayedStage = none
        ∧ (loadStageFinish (loadStageStart s).1 idx false).isLoading = false) := by
  refine ⟨?_, ?_, ?_, ?_⟩
  · intro h; simp [loadStageStart, h]
  · intro h; simp [loadStageStart, h]
  · simp [loadStageFinish]
  · intro h; simp [loadStageStart, loadStageFinish, h]

/-- Witness for C8 (amended): a concurrent call on an in-flight state is the
identity with result `false`; from an idle state the load ends displaying the
requested stage on success. -/
theorem load_guard_witness :
    loadStageStart ⟨true, some 0⟩ = (⟨true, some 0⟩, false)
    ∧ (loadStageFinish (loadStageStart ⟨false, some 0⟩).1 3 true).displayedStage = some 3
    ∧ (loadStageFinish (loadStageStart ⟨false, some 0⟩).1 3 false).displayedStage = none := by
  have h1 := load_guard_rejects_and_disposes_early ⟨true, some 0⟩ 3
  have h2 := load_guard_rejects_and_disposes_early ⟨false, some 0⟩ 3
  exact ⟨h1.1 rfl, h2.2.2.1.1, (h2.2.2.2 rfl).1⟩

/-- C9 counterexample: with the movable dot present but invisible, a
pointer-down whose ray hits the dot and no annotation still begins a drag —
`onDotPointerDown` checks the dot's existence but never its visibility —
refuting "when the marker is not visible, a pointer-down over it does not
begin a drag". -/
theorem invisible_dot_drag_begins :
    hiddenDotPtr.dotVisible = false
    ∧ hiddenDotPtr.isDraggingDot = false
    ∧ (dispatchPointerDown true [] hiddenDotPtr dotOnlyEv).isDraggingDot = true
    ∧ (dispatchPointerDown true [] hiddenDotPtr dotOnlyEv).controlsEnabled = false := by
  refine ⟨rfl, rfl, ?_, ?_⟩ <;>
    simp [dispatchPointerDown, onAnnotationPointerDown, onDotPointerDown,
      hiddenDotPtr, dotOnlyEv]

/-- C9 (amended): outside the reserved zones, (a) when the marker is present,
visible and ray-hit, the marker claims the pointer-down — a drag begins and
the annotation selection state is untouched even when the ray also hits an
annotation; (b) when the marker is invisible and the ray hits an annotation,
the annotation claims the event and stops propagation, so no drag begins and
that annotation becomes selected; (c) but when the marker is present and
ray-hit with no annotation hit, a drag begins regardless of the marker's
visibility. -/
theorem pointer_routing_priority (s : PtrState) (ev : PdEvent)
    (annsData : List AnnData) (i : Nat) :
    (s.dotPresent = true → s.dotVisible = true → ev.hitsDot = true →
      ev.inStagesMenu = false → ev.inButtonArea = false →
        (dispatchPointerDown true annsData s ev).isDraggingDot = true
        ∧ (dispatchPointerDown true annsData s ev).scene = s.scene)
    ∧ (s.dotVisible = false → ev.annHit = some i →
      ev.inStagesMenu = false → ev.inButtonArea = false → s.isDraggingDot = false →
        (dispatchPointerDown true annsData s ev).isDraggingDot = false
        ∧ (dispatchPointerDown true annsData s ev).scene.selectedIdx = (i : Int))
    ∧ (s.dotPresent = true → ev.hitsDot = true → ev.annHit = none →
      ev.inStagesMenu = false → ev.inButtonArea = false →
        (dispatchPointerDown true annsData s ev).isDraggingDot = true) := by
  refine ⟨?_, ?_, ?_⟩
  · intro hp hv hh hm hb
    simp [dispatchPointerDown, onAnnotationPointerDown, onDotPointerDown,
      hp, hv, hh, hm, hb]
  · intro hv hann hm hb hd
    simp only [dispatchPointerDown, onAnnotationPointerDown, onDotPointerDown,
      hv, hann, hm, hb, Bool.false_eq_true, reduceIte, Bool.and_false,
      Bool.false_and, Bool.and_self]
    exact ⟨hd, highlight_selectedIdx s.scene i annsData⟩
  · intro hp hh hann hm hb
    simp [dispatchPointerDown, onAnnotationPointerDown, onDotPointerDown,
      hp, hh, hann, hm, hb]

/-- Witness for C9 (amended): a visible dot hit claims the event (drag, scene
untouched); an invisible dot with an annotation hit yields no drag and selects
annotation 0. -/
theorem pointer_routing_witness :
    (dispatchPointerDown true [] ⟨initScene 1, true, true, false, true⟩
        ⟨false, false, true, some 0⟩).isDraggingDot = true
    ∧ (dispatchPointerDown true [] ⟨initScene 1, true, true, false, true⟩
        ⟨false, false, true, some 0⟩).scene = initScene 1
    ∧ (dispatchPointerDown true [] hiddenDotPtr
        ⟨false, false, true, some 0⟩).isDraggingDot = false
    ∧ (dispatchPointerDown true [] hiddenDotPtr
        ⟨false, false, true, some 0⟩).scene.selectedIdx = (0 : Int) := by
  have h1 := pointer_routing_priority ⟨initScene 1, true, true, false, true⟩
    ⟨false, false, true, some 0⟩ [] 0
  have h2 := pointer_routing_priority hiddenDotPtr ⟨false, false, true, some 0⟩ [] 0
  have ha := h1.1 rfl rfl rfl rfl rfl
  have hb := h2.2.1 rfl rfl rfl rfl rfl
  exact ⟨ha.1, ha.2, hb.1, hb.2⟩
